import Mathlib

/-!
Verification development for the cric-roaster service (src/src/index.js).

The Express route handlers are shallowly embedded as pure Lean functions:
the in-memory `players` array becomes a `List Player` threaded explicitly,
HTTP responses become inductive result types, and the filesystem side
effects of the creation handler become an explicit effect trace together
with an `IOEnv` record saying which I/O operations succeed.

JavaScript string primitives (`toLowerCase`, `trim`) are modelled at the
ASCII level: `toLowerCase` maps `A`-`Z` to `a`-`z` and leaves every other
character unchanged, and `trim` strips the JS whitespace characters that
occur in practice (ASCII whitespace, NBSP, BOM).  Full Unicode case
mapping and the full Unicode space category are outside the model.
-/

namespace CricRoster

/-! ### JS string primitives (ASCII model) -/

/-- ASCII model of String.prototype.toLowerCase for a single character. -/
def jsToLowerChar (c : Char) : Char :=
  if 'A' ≤ c && c ≤ 'Z' then Char.ofNat (c.toNat + 32) else c

/-- ASCII model of String.prototype.toLowerCase. -/
def jsToLower (s : String) : String :=
  String.mk (s.toList.map jsToLowerChar)

/-- Characters removed by String.prototype.trim (ASCII whitespace, NBSP, BOM). -/
def jsIsSpaceChar (c : Char) : Bool :=
  c == ' ' || c == '\t' || c == '\n' || c == '\r' ||
  c == '\x0b' || c == '\x0c' || c == ' ' || c == '﻿'

/-- Model of String.prototype.trim. -/
def jsTrim (s : String) : String :=
  String.mk (((s.toList.dropWhile jsIsSpaceChar).reverse.dropWhile jsIsSpaceChar).reverse)

/-! ### slugify (index.js lines 36-40)

`value.toLowerCase().replace(/[^a-z0-9]+/g, '-').replace(/^-+|-+$/g, '') || 'player'`
-/

/-- Membership in the character class `[a-z0-9]`. -/
def isLowerAlnum (c : Char) : Bool :=
  ('a' ≤ c && c ≤ 'z') || ('0' ≤ c && c ≤ '9')

/-- Scanner for the global replace `/[^a-z0-9]+/g → '-'`: the flag records
whether the previous character belonged to a run of characters outside
`[a-z0-9]` (whose hyphen has already been emitted). -/
def replaceBadRunsGo : Bool → List Char → List Char
  | _, [] => []
  | prevBad, c :: rest =>
    if isLowerAlnum c then c :: replaceBadRunsGo false rest
    else if prevBad then replaceBadRunsGo true rest
    else '-' :: replaceBadRunsGo true rest

/-- The global replace `/[^a-z0-9]+/g → '-'`: each maximal run of characters
outside `[a-z0-9]` becomes a single hyphen. -/
def replaceBadRuns (l : List Char) : List Char :=
  replaceBadRunsGo false l

/-- The strip `/^-+|-+$/g → ''`: remove the run of hyphens at the start and
the run of hyphens at the end. -/
def stripDashes (l : List Char) : List Char :=
  ((l.dropWhile (fun c => c == '-')).reverse.dropWhile (fun c => c == '-')).reverse

/-- index.js `slugify`; the trailing `|| 'player'` catches the empty (falsy)
string. -/
def slugify (value : String) : String :=
  let processed := stripDashes (replaceBadRuns (value.toList.map jsToLowerChar))
  if processed.isEmpty then "player" else String.mk processed

/-! Spec-side restatement of the slug derivation (for the refinement claim):
lowercase, mark every character outside `[a-z0-9]` as a hyphen, collapse
consecutive hyphens to one, strip leading/trailing hyphens, fall back to
`player` when empty.  It is compared with `slugify` above, which follows the
source's regex-replacement structure instead. -/

/-- Mark a character outside `[a-z0-9]` as a hyphen. -/
def dashMark (c : Char) : Char :=
  if isLowerAlnum c then c else '-'

/-- Collapse each group of consecutive hyphens to a single hyphen. -/
def squeezeDashes : List Char → List Char
  | [] => []
  | [c] => [c]
  | a :: b :: rest =>
    if a == '-' && b == '-' then squeezeDashes (b :: rest)
    else a :: squeezeDashes (b :: rest)

/-- The slug derivation as the specification words it. -/
def slugifySpec (value : String) : String :=
  let processed := stripDashes (squeezeDashes ((value.toList.map jsToLowerChar).map dashMark))
  if processed.isEmpty then "player" else String.mk processed

lemma isLowerAlnum_ne_dash {c : Char} (h : isLowerAlnum c = true) :
    (c == '-') = false := by
  cases hc : (c == '-') with
  | false => rfl
  | true =>
    have hceq : c = '-' := eq_of_beq hc
    subst hceq
    exact absurd h (by decide)

lemma squeezeDashes_cons_of_ne (c : Char) (l : List Char) (h : (c == '-') = false) :
    squeezeDashes (c :: l) = c :: squeezeDashes l := by
  cases l with
  | nil => rfl
  | cons b r => simp [squeezeDashes, h]

lemma replaceBadRunsGo_eq_squeeze (l : List Char) :
    replaceBadRunsGo false l = squeezeDashes (l.map dashMark) ∧
    '-' :: replaceBadRunsGo true l = squeezeDashes ('-' :: l.map dashMark) := by
  induction l with
  | nil => exact ⟨rfl, rfl⟩
  | cons c rest ih =>
    obtain ⟨ih1, ih2⟩ := ih
    by_cases hc : isLowerAlnum c = true
    · have hmark : dashMark c = c := by simp [dashMark, hc]
      have hne : (c == '-') = false := isLowerAlnum_ne_dash hc
      constructor
      · rw [replaceBadRunsGo, if_pos hc, List.map_cons, hmark,
          squeezeDashes_cons_of_ne c _ hne, ih1]
      · rw [replaceBadRunsGo, if_pos hc, List.map_cons, hmark]
        have hcond : (('-' : Char) == '-') && (c == '-') = false := by
          rw [hne]; simp
        rw [show squeezeDashes ('-' :: c :: rest.map dashMark)
              = '-' :: squeezeDashes (c :: rest.map dashMark) by
            simp [squeezeDashes, hne]]
        rw [squeezeDashes_cons_of_ne c _ hne, ih1]

    · have hcfalse : isLowerAlnum c = false := Bool.eq_false_iff.mpr (fun h => hc h)
      have hmark : dashMark c = '-' := by simp [dashMark, hcfalse]
      constructor
      · rw [replaceBadRunsGo, if_neg (by simp [hcfalse]), if_neg (by simp),
          List.map_cons, hmark, ← ih2]
      · rw [replaceBadRunsGo, if_neg (by simp [hcfalse]), if_pos rfl,
          List.map_cons, hmark]
        rw [show squeezeDashes ('-' :: '-' :: rest.map dashMark)
              = squeezeDashes ('-' :: rest.map dashMark) by
            simp [squeezeDashes]]
        exact ih2

lemma replaceBadRuns_eq_squeeze (l : List Char) :
    replaceBadRuns l = squeezeDashes (l.map dashMark) :=
  (replaceBadRunsGo_eq_squeeze l).1

/-- Claim C6: the file-stem derivation maps every playerName by lowercasing,
replacing each maximal run of characters outside `[a-z0-9]` with a single
hyphen, stripping leading and trailing hyphens, and falling back to the
literal `player` when the result is empty; in particular `"Virat Kohli"`
maps to `"virat-kohli"`, `"!!!"` to `"player"`, and `"MS Dhoni 07"` to
`"ms-dhoni-07"`. -/
theorem slugify_matches_spec_and_examples :
    (∀ s : String, slugify s = slugifySpec s) ∧
    slugify "Virat Kohli" = "virat-kohli" ∧
    slugify "!!!" = "player" ∧
    slugify "MS Dhoni 07" = "ms-dhoni-07" := by
  refine ⟨fun s => ?_, by decide, by decide, by decide⟩
  unfold slugify slugifySpec
  rw [replaceBadRuns_eq_squeeze]

/-! ### MIME mapping and data-URL recognition (index.js lines 42-53, 178-182) -/

/-- index.js `mapMimeToExtension`: the `switch` on the MIME string.  The
explicit `image/png` case and the `default` case of the source both return
`.png`, so they are rendered as the final else. -/
def mapMimeToExtension (mime : String) : String :=
  if mime = "image/svg+xml" then ".svg"
  else if mime = "image/jpeg" then ".jpg"
  else if mime = "image/jpg" then ".jpg"
  else ".png"

/-- Character class `[a-zA-Z0-9+.-]` of the data-URL regex. -/
def isMimeChar (c : Char) : Bool :=
  c.isAlpha || c.isDigit || c == '+' || c == '.' || c == '-'

/-- The ECMAScript line terminators LF, CR, U+2028, U+2029 — the characters
a JS regex `.` does not match. -/
def isLineTerminator (c : Char) : Bool :=
  c == '\n' || c == '\r' || c == '\u2028' || c == '\u2029'

/-- The match of the regular expression at index.js line 178 — anchored
`data:` followed by the capture group `image/` plus one or more characters
of the class `[a-zA-Z0-9+.-]`, the literal `;base64,`, and the capture
group `.+` up to the anchor at the end — returning the two capture groups
(MIME type, base64 payload) on success.

Notes on regex semantics reproduced here: the character class cannot match
`;`, so the greedy `+` is equivalent to taking the maximal run of class
characters followed by the literal `;base64,` (no backtracking can succeed
otherwise); `.` matches any character except a line terminator; and `$`
without the `m` flag asserts the end of input and nothing else (no JS
allowance for a trailing line feed).  Hence the payload group is exactly
the remainder after `;base64,`, which must be nonempty and free of line
terminators — a data URL with any LF/CR/LS/PS anywhere after the prefix is
NOT recognized and falls back to the plain-base64 path. -/
def parseDataUrl (image : String) : Option (String × String) :=
  let l := image.toList
  if l.take 11 = "data:image/".toList then
    let rest := l.drop 11
    let mimeRun := rest.takeWhile isMimeChar
    if mimeRun.isEmpty then none
    else if (rest.drop mimeRun.length).take 8 = ";base64,".toList then
      let payload := rest.drop (mimeRun.length + 8)
      if payload.isEmpty || payload.any isLineTerminator then none
      else some (String.mk ("image/".toList ++ mimeRun), String.mk payload)
    else none
  else none

/-- The `extension` / `base64Payload` pair computed at index.js lines 175-182:
defaults `(.png, image)`, overridden when the data-URL regex matches. -/
def imageExtensionAndPayload (image : String) : String × String :=
  match parseDataUrl image with
  | some (mime, payload) => (mapMimeToExtension mime, payload)
  | none => (".png", image)

/-- The file extension the creation handler stores the image under. -/
def chosenExtension (image : String) : String :=
  (imageExtensionAndPayload image).1

/-- Claim C7: the stored file's extension is `.svg` when the data-URL MIME is
`image/svg+xml`, `.jpg` when it is `image/jpeg` or `image/jpg`, and `.png`
for every other MIME and for every payload not matching the recognized
data-URL pattern. -/
theorem chosenExtension_cases (image : String) :
    (∀ mime payload, parseDataUrl image = some (mime, payload) →
      chosenExtension image =
        (if mime = "image/svg+xml" then ".svg"
         else if mime = "image/jpeg" ∨ mime = "image/jpg" then ".jpg"
         else ".png")) ∧
    (parseDataUrl image = none → chosenExtension image = ".png") := by
  constructor
  · intro mime payload hparse
    unfold chosenExtension imageExtensionAndPayload
    rw [hparse]
    unfold mapMimeToExtension
    by_cases h1 : mime = "image/svg+xml"
    · simp [h1]
    · by_cases h2 : mime = "image/jpeg"
      · simp [h1, h2]
      · by_cases h3 : mime = "image/jpg"
        · simp [h1, h2, h3]
        · simp [h1, h2, h3]
  · intro hparse
    unfold chosenExtension imageExtensionAndPayload
    rw [hparse]

/-- Witness for C7 at concrete inputs: an SVG data URL yields `.svg`, and a
plain base64 string (no data-URL prefix) yields `.png`. -/
theorem chosenExtension_cases_witness :
    chosenExtension "data:image/svg+xml;base64,AAAA" = ".svg" ∧
    chosenExtension "aGVsbG8=" = ".png" := by
  constructor
  · have h := (chosenExtension_cases "data:image/svg+xml;base64,AAAA").1
      "image/svg+xml" "AAAA" (by decide)
    simpa using h
  · exact (chosenExtension_cases "aGVsbG8=").2 (by decide)

/-! ### Data model

Request bodies are parsed JSON objects; express.json yields an object whose
values can be any JSON value.  `JVal` models the JSON scalars that occur in
player records (nested arrays/objects are never inspected by the handlers
and are left out of the model).  A `Body` is the object as an association
list of present keys — `req.body[field] === undefined` is exactly "key not
present", since parsed JSON cannot hold `undefined` (JSON `null` parses to
`null`, which passes the presence check).  Parsed JSON objects have distinct
keys (JSON.parse keeps the last duplicate), so bodies are read through
first-match lookup over distinct keys. -/

inductive JVal where
  | str (s : String)
  | num (n : Int)
  | bool (b : Bool)
  | null
deriving DecidableEq

def Body : Type := List (String × JVal)

/-- JS property read `body[key]` (absent key reads as undefined — `none`). -/
def getField (body : Body) (key : String) : Option JVal :=
  (body.find? (fun kv => kv.1 == key)).map (fun kv => kv.2)

/-- A stored player record, with the fields in the order the creation handler
builds them (index.js lines 192-204).  Note the source spells the batting
style key `battingSyle` everywhere (required-field list, destructuring and
record construction).  The fields the handlers compare or slugify
(`playerName`, `teamName`, `uniquePlayerId`) and the derived `image` path
are strings; the remaining fields are copied verbatim from the request
body and stay arbitrary JSON values. -/
structure Player where
  playerName : String
  image : String
  role : JVal
  teamName : String
  countryName : JVal
  age : JVal
  battingSyle : JVal
  uniquePlayerId : String
  runsScored : JVal
  centuriesScored : JVal
  wicketsTaken : JVal
deriving DecidableEq

/-! ### GET /players?teamName=... (index.js lines 89-113) -/

/-- The projection at index.js lines 105-110: only these four fields are
exposed. -/
structure PlayerSummary where
  playerName : String
  image : String
  role : JVal
  uniquePlayerId : String
deriving DecidableEq

def playerSummaryOf (p : Player) : PlayerSummary :=
  ⟨p.playerName, p.image, p.role, p.uniquePlayerId⟩

inductive ByTeamResult where
  | validationError (message : String)
  | notFound (message : String)
  | ok (teamName : String) (players : List PlayerSummary)
deriving DecidableEq

/-- Does the byTeam result carry HTTP status 400? -/
def ByTeamResult.isValidation : ByTeamResult → Bool
  | .validationError _ => true
  | _ => false

/-- The GET /players handler.  The query parameter is `none` when absent;
Express can also deliver a repeated parameter as an array, which the
`typeof teamName !== 'string'` guard rejects the same way as absence, so
the model only carries the string case.  The JS guard `!teamName` rejects
exactly the empty string once undefined is excluded. -/
def byTeam (players : List Player) (teamName? : Option String) : ByTeamResult :=
  match teamName? with
  | none => .validationError "teamName query parameter is required"
  | some teamName =>
    if teamName = "" then .validationError "teamName query parameter is required"
    else
      match players.filter
          (fun p => jsToLower p.teamName == jsToLower (jsTrim teamName)) with
      | [] => .notFound ("No players found for team " ++ teamName)
      | first :: rest =>
        .ok first.teamName ((first :: rest).map playerSummaryOf)

/-! ### GET /players/:uniquePlayerId (index.js lines 116-127) -/

inductive ByIdResult where
  | notFound (message : String)
  | ok (p : Player)
deriving DecidableEq

def byId (players : List Player) (uniquePlayerId : String) : ByIdResult :=
  match players.find?
      (fun entry => jsToLower entry.uniquePlayerId == jsToLower uniquePlayerId) with
  | none => .notFound ("Player with id " ++ uniquePlayerId ++ " not found")
  | some player => .ok player

/-! ### GET /players/grouped (index.js lines 73-86)

The handler accumulates a plain JS object keyed by `teamName` and then
calls `Object.entries` on it.  Two points of JS semantics are modelled
explicitly:

* Property assignment to an existing key keeps the key's position, and a
  new key is appended — an insertion-ordered association list.
* `Object.entries` does NOT simply return insertion order: own string keys
  that are array indices (canonical base-10 numerals with value below
  2^32 - 1) are enumerated first, in ascending numeric order, before the
  remaining string keys in insertion order.

The special key `"__proto__"` is not an ordinary own property of an object
literal (assigning it replaces the prototype and the subsequent `push`
throws), so theorems about `grouped` carry the side condition that no
teamName is that literal. -/

/-- Numeric value of a digit string. -/
def digitsVal (l : List Char) : Nat :=
  l.foldl (fun a c => a * 10 + (c.toNat - 48)) 0

/-- Is the string a canonical array-index property key: a base-10 numeral
with no leading zero (except "0" itself) whose value is below 2^32 - 1? -/
def isArrayIndexKey (s : String) : Bool :=
  let l := s.toList
  !l.isEmpty && l.all (fun c => c.isDigit) &&
    (s == "0" || l.head? != some '0') &&
    digitsVal l < 4294967295

/-- One step of the reduce at index.js lines 74-78: append the player to its
team's bucket, creating the bucket at the end of the object on first sight
of the team. -/
def addToGroup (acc : List (String × List Player)) (p : Player) :
    List (String × List Player) :=
  if (acc.find? (fun kv => kv.1 == p.teamName)).isSome then
    acc.map (fun kv => if kv.1 == p.teamName then (kv.1, kv.2 ++ [p]) else kv)
  else acc ++ [(p.teamName, [p])]

/-- The `groupedMap` object, as an insertion-ordered association list. -/
def groupedMap (players : List Player) : List (String × List Player) :=
  players.foldl addToGroup []

/-- Insertion into a list of entries sorted by ascending numeric key value. -/
def insertByIdx (kv : String × List Player) :
    List (String × List Player) → List (String × List Player)
  | [] => [kv]
  | h :: t =>
    if digitsVal kv.1.toList ≤ digitsVal h.1.toList then kv :: h :: t
    else h :: insertByIdx kv t

def sortByIdx (l : List (String × List Player)) : List (String × List Player) :=
  l.foldr insertByIdx []

/-- `Object.entries` enumeration order: array-index keys first in ascending
numeric order, then the remaining string keys in insertion order. -/
def jsObjectEntries (assoc : List (String × List Player)) :
    List (String × List Player) :=
  sortByIdx (assoc.filter (fun kv => isArrayIndexKey kv.1)) ++
    assoc.filter (fun kv => !isArrayIndexKey kv.1)

/-- One `{teamName, members}` element of the grouped response. -/
structure TeamGroup where
  teamName : String
  members : List Player
deriving DecidableEq

/-- The GET /players/grouped handler. -/
def grouped (players : List Player) : List TeamGroup :=
  (jsObjectEntries (groupedMap players)).map (fun kv => ⟨kv.1, kv.2⟩)

/-! Spec-side restatement of grouping for the first-seen-order claim. -/

/-- The distinct team names in order of first occurrence. -/
def firstSeenTeams (players : List Player) : List String :=
  players.foldl
    (fun acc p => if p.teamName ∈ acc then acc else acc ++ [p.teamName]) []

/-- Grouping as the specification words it: one pair per distinct team in
first-seen order, whose members are the players of that team (compared
case-sensitively) in collection order. -/
def groupedSpec (players : List Player) : List TeamGroup :=
  (firstSeenTeams players).map
    (fun t => ⟨t, players.filter (fun p => p.teamName == t)⟩)

/-! ### POST /players (index.js lines 130-214) -/

/-- The `requiredFields` array of index.js lines 131-143, in source order and
source spelling (note `battingSyle`). -/
def requiredFields : List String :=
  ["playerName", "role", "teamName", "countryName", "age", "battingSyle",
   "uniquePlayerId", "runsScored", "centuriesScored", "wicketsTaken", "image"]

/-- index.js line 145: the required fields absent from the body, in one pass. -/
def missingFields (body : Body) : List String :=
  requiredFields.filter (fun field => (getField body field).isNone)

/-- The duplicate predicate of index.js lines 164-168. -/
def dupPred (uniquePlayerId playerName : String) (p : Player) : Bool :=
  jsToLower p.uniquePlayerId == jsToLower uniquePlayerId ||
    jsToLower p.playerName == jsToLower playerName

/-- Base64 alphabet membership. -/
def isBase64Char (c : Char) : Bool :=
  c.isAlpha || c.isDigit || c == '+' || c == '/'

def base64CharVal (c : Char) : Nat :=
  if 'A' ≤ c && c ≤ 'Z' then c.toNat - 65
  else if 'a' ≤ c && c ≤ 'z' then c.toNat - 71
  else if '0' ≤ c && c ≤ '9' then c.toNat + 4
  else if c = '+' then 62
  else 63

def decodeBase64Groups : List Char → List Nat
  | a :: b :: c :: d :: rest =>
    let n := base64CharVal a * 262144 + base64CharVal b * 4096 +
      base64CharVal c * 64 + base64CharVal d
    (n / 65536) :: (n / 256 % 256) :: (n % 256) :: decodeBase64Groups rest
  | [a, b, c] =>
    let n := base64CharVal a * 4096 + base64CharVal b * 64 + base64CharVal c
    [n / 1024, n / 4 % 256]
  | [a, b] => [base64CharVal a * 4 + base64CharVal b / 16]
  | _ => []

/-- Node's `Buffer.from(payload, 'base64')`: a total, lenient decoder that
never throws — characters outside the base64 alphabet are skipped and
decoding stops at the first `=` padding character.  The exact bytes on
malformed input only approximate Node; no claim depends on them, only on
totality (decoding is not a failure point). -/
def bufferFromBase64 (s : String) : List Nat :=
  decodeBase64Groups ((s.toList.takeWhile (fun c => c ≠ '=')).filter isBase64Char)

/-- Strict base64 validity, as the specification's words "valid base64":
padding to a multiple of four, at most two `=` at the end, and alphabet
characters elsewhere. -/
def isValidBase64 (s : String) : Bool :=
  let l := s.toList
  let pad := (l.reverse.takeWhile (fun c => c == '=')).length
  l.length % 4 == 0 && pad ≤ 2 &&
    (l.take (l.length - pad)).all isBase64Char

/-- Which of the fallible filesystem steps inside the `try` block threw
(distinguishable to the caller through `error.message` in the 500 body). -/
inductive FailStep where
  | mkdirFail
  | imageWriteFail
  | dataWriteFail
deriving DecidableEq

inductive CreateResult where
  /-- 400, `Missing required fields: ...` (carries the joined list). -/
  | validationError (missingFields : List String)
  /-- 400, `Player already exists`. -/
  | conflictError
  /-- A thrown JS TypeError for request key fields that are present but not
  strings (e.g. `uniquePlayerId.toLowerCase()` on a number).  The precise
  JS outcome (uncaught rejection or the catch-all 500) is outside the
  modelled input space of the claims; the constructor only keeps such
  inputs distinguishable. -/
  | typeError
  /-- 500, `Failed to add player` from the catch block. -/
  | serverError (step : FailStep)
  /-- 201 with the created record. -/
  | created (p : Player)
deriving DecidableEq

/-- Which of the three filesystem operations succeed when attempted. -/
structure IOEnv where
  mkdirOk : Bool
  writeImageOk : Bool
  writeDataOk : Bool
deriving DecidableEq

/-- Filesystem operations attempted by one creation request, in order; a
failing operation is the last element of the trace. -/
inductive FsEffect where
  | mkdirPlayersDir
  | writeImageFile (fileName : String) (bytes : List Nat)
  | writePlayersData (contents : List Player)
deriving DecidableEq

structure CreateOutcome where
  result : CreateResult
  players : List Player
  effects : List FsEffect
deriving DecidableEq

/-- The `try` block of index.js lines 174-209, entered after validation and
duplicate detection, for string-valued `image` and `teamName`.  The source
pushes onto the in-memory array before writing the backing file, so a
failing data write leaves the appended record in place. -/
def runTryBlock (players : List Player) (body : Body) (env : IOEnv)
    (playerName uniquePlayerId image teamName : String) : CreateOutcome :=
  let extPayload := imageExtensionAndPayload image
  let imageBuffer := bufferFromBase64 extPayload.2
  let fileName := slugify playerName ++ extPayload.1
  let relativePath := "/players/" ++ fileName
  if env.mkdirOk = false then
    ⟨.serverError .mkdirFail, players, [.mkdirPlayersDir]⟩
  else if env.writeImageOk = false then
    ⟨.serverError .imageWriteFail, players,
      [.mkdirPlayersDir, .writeImageFile fileName imageBuffer]⟩
  else
    let newPlayer : Player :=
      { playerName := playerName
        image := relativePath
        role := (getField body "role").getD JVal.null
        teamName := teamName
        countryName := (getField body "countryName").getD JVal.null
        age := (getField body "age").getD JVal.null
        battingSyle := (getField body "battingSyle").getD JVal.null
        uniquePlayerId := uniquePlayerId
        runsScored := (getField body "runsScored").getD JVal.null
        centuriesScored := (getField body "centuriesScored").getD JVal.null
        wicketsTaken := (getField body "wicketsTaken").getD JVal.null }
    let updated := players ++ [newPlayer]
    if env.writeDataOk = false then
      ⟨.serverError .dataWriteFail, updated,
        [.mkdirPlayersDir, .writeImageFile fileName imageBuffer,
          .writePlayersData updated]⟩
    else
      ⟨.created newPlayer, updated,
        [.mkdirPlayersDir, .writeImageFile fileName imageBuffer,
          .writePlayersData updated]⟩

/-- The POST /players handler.  Steps in source order: collect ALL missing
required fields and fail 400 if any (lines 145-148); destructure; duplicate
check on `uniquePlayerId` OR `playerName`, case-insensitive, fail 400
(lines 164-172); then the `try` block.  The destructured `getD JVal.null`
defaults in `runTryBlock` are never reached: the validation step already
guarantees each field is present. -/
def createPlayer (players : List Player) (body : Body) (env : IOEnv) :
    CreateOutcome :=
  if missingFields body = [] then
    match getField body "playerName", getField body "uniquePlayerId" with
    | some (JVal.str playerName), some (JVal.str uniquePlayerId) =>
      if (players.find? (dupPred uniquePlayerId playerName)).isSome then
        ⟨.conflictError, players, []⟩
      else
        match getField body "image", getField body "teamName" with
        | some (JVal.str image), some (JVal.str teamName) =>
          runTryBlock players body env playerName uniquePlayerId image teamName
        | _, _ => ⟨.typeError, players, []⟩
    | _, _ => ⟨.typeError, players, []⟩
  else ⟨.validationError (missingFields body), players, []⟩

/-! ### Concrete data for witnesses and counterexamples -/

def okEnv : IOEnv := ⟨true, true, true⟩

def demoPlayer : Player :=
  { playerName := "Virat Kohli"
    image := "/players/virat-kohli.png"
    role := .str "Batter"
    teamName := "Royal Challengers Bengaluru"
    countryName := .str "India"
    age := .num 36
    battingSyle := .str "Right-hand bat"
    uniquePlayerId := "RCB-18"
    runsScored := .num 8004
    centuriesScored := .num 8
    wicketsTaken := .num 4 }

def demoPlayer2 : Player :=
  { playerName := "MS Dhoni"
    image := "/players/ms-dhoni.png"
    role := .str "Wicketkeeper"
    teamName := "Chennai Super Kings"
    countryName := .str "India"
    age := .num 43
    battingSyle := .str "Right-hand bat"
    uniquePlayerId := "CSK-7"
    runsScored := .num 5243
    centuriesScored := .num 0
    wicketsTaken := .num 0 }

def demoPlayer3 : Player :=
  { playerName := "Rajat Patidar"
    image := "/players/rajat-patidar.png"
    role := .str "Batter"
    teamName := "Royal Challengers Bengaluru"
    countryName := .str "India"
    age := .num 31
    battingSyle := .str "Right-hand bat"
    uniquePlayerId := "RCB-12"
    runsScored := .num 1111
    centuriesScored := .num 1
    wicketsTaken := .num 0 }

/-- A player whose teamName is the array-index string `"1"`. -/
def numTeamPlayer : Player :=
  { playerName := "Number One"
    image := "/players/number-one.png"
    role := .str "Bowler"
    teamName := "1"
    countryName := .str "India"
    age := .num 22
    battingSyle := .str "Left-hand bat"
    uniquePlayerId := "NUM-1"
    runsScored := .num 3
    centuriesScored := .num 0
    wicketsTaken := .num 17 }

/-- The 11 required field names as the specification's data model spells
them (`battingStyle`), for comparison with the source's `requiredFields`. -/
def specNamedFields : List String :=
  ["playerName", "role", "teamName", "countryName", "age", "battingStyle",
   "uniquePlayerId", "runsScored", "centuriesScored", "wicketsTaken", "image"]

/-- A body carrying exactly the 11 field names of the specification's data
model, spelled `battingStyle`. -/
def bodyAllSpecFields : Body :=
  [("playerName", .str "Rohit Sharma"), ("role", .str "Batter"),
   ("teamName", .str "Mumbai Indians"), ("countryName", .str "India"),
   ("age", .num 38), ("battingStyle", .str "Right-hand bat"),
   ("uniquePlayerId", .str "MI-45"), ("runsScored", .num 9500),
   ("centuriesScored", .num 1), ("wicketsTaken", .num 8),
   ("image", .str "AAAA")]

/-- A body spelled as the source requires but with `age` absent. -/
def bodyMissingAge : Body :=
  [("playerName", .str "Rohit Sharma"), ("role", .str "Batter"),
   ("teamName", .str "Mumbai Indians"), ("countryName", .str "India"),
   ("battingSyle", .str "Right-hand bat"),
   ("uniquePlayerId", .str "MI-45"), ("runsScored", .num 9500),
   ("centuriesScored", .num 1), ("wicketsTaken", .num 8),
   ("image", .str "AAAA")]

/-- A complete, source-spelled body whose playerName collides with
`demoPlayer` up to case while its uniquePlayerId is fresh. -/
def bodyConflictFull : Body :=
  [("playerName", .str "virat KOHLI"), ("role", .str "Batter"),
   ("teamName", .str "Royal Challengers Bengaluru"),
   ("countryName", .str "India"), ("age", .num 36),
   ("battingSyle", .str "Right-hand bat"),
   ("uniquePlayerId", .str "XX-1"), ("runsScored", .num 1),
   ("centuriesScored", .num 0), ("wicketsTaken", .num 0),
   ("image", .str "AAAA")]

/-- A body missing `age` whose uniquePlayerId collides with `demoPlayer`
up to case. -/
def bodyConflictMissingAge : Body :=
  [("playerName", .str "New Guy"), ("role", .str "Bowler"),
   ("teamName", .str "Mumbai Indians"), ("countryName", .str "India"),
   ("battingSyle", .str "Right-hand bat"),
   ("uniquePlayerId", .str "rcb-18"), ("runsScored", .num 10),
   ("centuriesScored", .num 0), ("wicketsTaken", .num 99),
   ("image", .str "AAAA")]

/-- A complete, source-spelled valid body: fresh id and name relative to
`demoPlayer`, JPEG data-URL image. -/
def bodyValidFresh : Body :=
  [("playerName", .str "Rohit Sharma"), ("role", .str "Batter"),
   ("teamName", .str "Mumbai Indians"), ("countryName", .str "India"),
   ("age", .num 38), ("battingSyle", .str "Right-hand bat"),
   ("uniquePlayerId", .str "MI-45"), ("runsScored", .num 9500),
   ("centuriesScored", .num 1), ("wicketsTaken", .num 8),
   ("image", .str "data:image/jpeg;base64,AAAA")]

/-- A complete, source-spelled valid body whose image payload `"!!!"` is not
valid base64. -/
def bodyBadImage : Body :=
  [("playerName", .str "Bad Image Guy"), ("role", .str "Bowler"),
   ("teamName", .str "Chennai Super Kings"), ("countryName", .str "India"),
   ("age", .num 25), ("battingSyle", .str "Left-hand bat"),
   ("uniquePlayerId", .str "CSK-99"), ("runsScored", .num 5),
   ("centuriesScored", .num 0), ("wicketsTaken", .num 40),
   ("image", .str "!!!")]

/-! ### Claim C1 -/

lemma runTryBlock_result_ne_validation (players : List Player) (body : Body)
    (env : IOEnv) (pn uid img tn : String) (m : List String) :
    (runTryBlock players body env pn uid img tn).result ≠
      CreateResult.validationError m := by
  unfold runTryBlock
  by_cases h1 : env.mkdirOk = false
  · simp [h1]
  · by_cases h2 : env.writeImageOk = false
    · simp [h1, h2]
    · by_cases h3 : env.writeDataOk = false
      · simp [h1, h2, h3]
      · simp [h1, h2, h3]

lemma createPlayer_result_validation_iff (players : List Player) (body : Body)
    (env : IOEnv) (m : List String) :
    (createPlayer players body env).result = CreateResult.validationError m ↔
      (missingFields body ≠ [] ∧ m = missingFields body) := by
  constructor
  · intro hres
    unfold createPlayer at hres
    by_cases hm : missingFields body = []
    · rw [if_pos hm] at hres
      exfalso
      split at hres
      · split at hres
        · simp at hres
        · split at hres
          · exact runTryBlock_result_ne_validation _ _ _ _ _ _ _ _ hres
          · simp at hres
      · simp at hres
    · rw [if_neg hm] at hres
      simp only [CreateResult.validationError.injEq] at hres
      exact ⟨hm, hres.symm⟩
  · rintro ⟨hne, rfl⟩
    unfold createPlayer
    rw [if_neg hne]

/-- Claim C1 (amended): for every creation request, each of the 11 required
field names of the source's `requiredFields` list — which spells the
batting-style key `battingSyle`, not the data model's `battingStyle` —
that is absent from the input appears in the ValidationError's missing
list; all missing names are collected in one shot; and the request fails
with ValidationError iff at least one of them is missing, the error
carrying exactly the one-pass list. -/
theorem createPlayer_validation_iff (players : List Player) (body : Body)
    (env : IOEnv) :
    ((createPlayer players body env).result =
        CreateResult.validationError (missingFields body) ↔
      missingFields body ≠ []) ∧
    (∀ m, (createPlayer players body env).result =
        CreateResult.validationError m → m = missingFields body) ∧
    (∀ f, f ∈ requiredFields → getField body f = none →
      f ∈ missingFields body) := by
  refine ⟨?_, ?_, ?_⟩
  · constructor
    · intro hres
      exact ((createPlayer_result_validation_iff players body env _).mp hres).1
    · intro hne
      exact (createPlayer_result_validation_iff players body env _).mpr ⟨hne, rfl⟩
  · intro m hres
    exact ((createPlayer_result_validation_iff players body env m).mp hres).2
  · intro f hf hnone
    unfold missingFields
    exact List.mem_filter.mpr ⟨hf, by simp [hnone]⟩

/-- Witness for C1 (amended) at a concrete input: a body missing only `age`
is rejected with exactly `["age"]` as the missing list. -/
theorem createPlayer_validation_iff_witness :
    (createPlayer [] bodyMissingAge okEnv).result =
      CreateResult.validationError ["age"] ∧
    "age" ∈ missingFields bodyMissingAge := by
  have h := createPlayer_validation_iff [] bodyMissingAge okEnv
  refine ⟨?_, h.2.2 "age" (by decide) (by decide)⟩
  have h1 := h.1.mpr (by decide)
  have h2 : missingFields bodyMissingAge = ["age"] := by decide
  rw [h2] at h1
  exact h1

/-- Counterexample to C1 as stated: a body carrying all 11 field names of
the specification's data model (spelled `battingStyle`) is nevertheless
rejected with a ValidationError listing `battingSyle` — the source's
required key — although none of the spec-named fields is absent. -/
theorem createPlayer_c1_counterexample :
    specNamedFields.all
      (fun f => (getField bodyAllSpecFields f).isSome) = true ∧
    (createPlayer [] bodyAllSpecFields okEnv).result =
      CreateResult.validationError ["battingSyle"] := by
  constructor
  · decide
  · decide

/-! ### Claim C4 -/

lemma runTryBlock_result_ne_conflict (players : List Player) (body : Body)
    (env : IOEnv) (pn uid img tn : String) :
    (runTryBlock players body env pn uid img tn).result ≠
      CreateResult.conflictError := by
  unfold runTryBlock
  by_cases h1 : env.mkdirOk = false
  · simp [h1]
  · by_cases h2 : env.writeImageOk = false
    · simp [h1, h2]
    · by_cases h3 : env.writeDataOk = false
      · simp [h1, h2, h3]
      · simp [h1, h2, h3]

/-- Claim C4 (amended): for every creation attempt with all required fields
present (and string key fields) whose uniquePlayerId or playerName collides
case-insensitively with an existing record, the result is ConflictError and
the collection contents are unchanged.  (A colliding attempt that is also
missing required fields fails with ValidationError instead — validation
precedes the uniqueness check — leaving the collection unchanged either
way.) -/
theorem createPlayer_conflict (players : List Player) (body : Body)
    (env : IOEnv) (uid pname : String)
    (hm : missingFields body = [])
    (hpn : getField body "playerName" = some (JVal.str pname))
    (hup : getField body "uniquePlayerId" = some (JVal.str uid))
    (hdup : (players.find? (dupPred uid pname)).isSome = true) :
    (createPlayer players body env).result = CreateResult.conflictError ∧
    (createPlayer players body env).players = players ∧
    (createPlayer players body env).effects = [] := by
  unfold createPlayer
  rw [if_pos hm, hpn, hup]
  simp [hdup]

/-- Witness for C4 (amended): a full valid body whose playerName collides
case-insensitively with the demo record is rejected with ConflictError and
leaves the collection as it was. -/
theorem createPlayer_conflict_witness :
    (createPlayer [demoPlayer] bodyConflictFull okEnv).result =
      CreateResult.conflictError ∧
    (createPlayer [demoPlayer] bodyConflictFull okEnv).players =
      [demoPlayer] := by
  have h := createPlayer_conflict [demoPlayer] bodyConflictFull okEnv
    "XX-1" "virat KOHLI" (by decide) (by decide) (by decide) (by decide)
  exact ⟨h.1, h.2.1⟩

/-- Counterexample to C4 as stated: an attempt whose uniquePlayerId collides
case-insensitively with the demo record but which is missing `age` yields
ValidationError, not ConflictError — the validation step runs first. -/
theorem createPlayer_c4_counterexample :
    dupPred "rcb-18" "New Guy" demoPlayer = true ∧
    (createPlayer [demoPlayer] bodyConflictMissingAge okEnv).result =
      CreateResult.validationError ["age"] ∧
    (createPlayer [demoPlayer] bodyConflictMissingAge okEnv).result ≠
      CreateResult.conflictError := by
  refine ⟨by decide, by decide, by decide⟩

/-! ### Claim C10 -/

lemma createPlayer_reject_frame (players : List Player) (body : Body)
    (env : IOEnv) (res : CreateResult) (ps : List Player)
    (effs : List FsEffect)
    (hco : createPlayer players body env = ⟨res, ps, effs⟩)
    (hres : (∃ m, res = CreateResult.validationError m) ∨
      res = CreateResult.conflictError) :
    effs = [] ∧ ps = players := by
  unfold createPlayer at hco
  by_cases hm : missingFields body = []
  · rw [if_pos hm] at hco
    split at hco
    · split at hco
      · simp only [CreateOutcome.mk.injEq] at hco
        exact ⟨hco.2.2.symm, hco.2.1.symm⟩
      · split at hco
        · exfalso
          rcases hres with ⟨m, hm2⟩ | hm2
          · exact runTryBlock_result_ne_validation _ _ _ _ _ _ _ m
              (by rw [hco]; exact hm2)
          · exact runTryBlock_result_ne_conflict _ _ _ _ _ _ _
              (by rw [hco]; exact hm2)
        · simp only [CreateOutcome.mk.injEq] at hco
          exact ⟨hco.2.2.symm, hco.2.1.symm⟩
    · simp only [CreateOutcome.mk.injEq] at hco
      exact ⟨hco.2.2.symm, hco.2.1.symm⟩
  · rw [if_neg hm] at hco
    simp only [CreateOutcome.mk.injEq] at hco
    exact ⟨hco.2.2.symm, hco.2.1.symm⟩

/-- Claim C10: every creation attempt that fails validation (missing fields)
or uniqueness (duplicate id or name) performs no filesystem operation: the
effect trace is empty — no image file write, no asset-directory creation,
no rewrite of the backing player file — and the collection is unchanged. -/
theorem createPlayer_reject_no_fs_effects (players : List Player)
    (body : Body) (env : IOEnv) :
    (∀ m, (createPlayer players body env).result =
        CreateResult.validationError m →
      (createPlayer players body env).effects = [] ∧
      (createPlayer players body env).players = players) ∧
    ((createPlayer players body env).result = CreateResult.conflictError →
      (createPlayer players body env).effects = [] ∧
      (createPlayer players body env).players = players) := by
  constructor
  · intro m hres
    exact createPlayer_reject_frame players body env
      (createPlayer players body env).result
      (createPlayer players body env).players
      (createPlayer players body env).effects rfl (Or.inl ⟨m, hres⟩)
  · intro hres
    exact createPlayer_reject_frame players body env
      (createPlayer players body env).result
      (createPlayer players body env).players
      (createPlayer players body env).effects rfl (Or.inr hres)

/-- Witness for C10: the concrete validation failure and the concrete
conflict failure both leave an empty effect trace. -/
theorem createPlayer_reject_no_fs_effects_witness :
    (createPlayer [] bodyMissingAge okEnv).effects = [] ∧
    (createPlayer [demoPlayer] bodyConflictFull okEnv).effects = [] := by
  constructor
  · exact ((createPlayer_reject_no_fs_effects [] bodyMissingAge okEnv).1
      ["age"] (by decide)).1
  · exact ((createPlayer_reject_no_fs_effects [demoPlayer] bodyConflictFull
      okEnv).2 (by decide)).1

/-! ### The successful creation path (claims C5, C2, C9) -/

/-- The record the creation handler constructs at index.js lines 192-204:
every input field verbatim except `image`, which becomes the derived
server-relative path. -/
def builtPlayer (pn uid img tn : String) (role cn age bs rs cs wt : JVal) :
    Player :=
  { playerName := pn
    image := "/players/" ++ (slugify pn ++ chosenExtension img)
    role := role
    teamName := tn
    countryName := cn
    age := age
    battingSyle := bs
    uniquePlayerId := uid
    runsScored := rs
    centuriesScored := cs
    wicketsTaken := wt }

lemma missingFields_eq_nil (body : Body)
    (pn uid img tn : String) (role cn age bs rs cs wt : JVal)
    (hpn : getField body "playerName" = some (JVal.str pn))
    (hup : getField body "uniquePlayerId" = some (JVal.str uid))
    (him : getField body "image" = some (JVal.str img))
    (htn : getField body "teamName" = some (JVal.str tn))
    (hrole : getField body "role" = some role)
    (hcn : getField body "countryName" = some cn)
    (hage : getField body "age" = some age)
    (hbs : getField body "battingSyle" = some bs)
    (hrs : getField body "runsScored" = some rs)
    (hcs : getField body "centuriesScored" = some cs)
    (hwt : getField body "wicketsTaken" = some wt) :
    missingFields body = [] := by
  unfold missingFields requiredFields
  simp [List.filter, hpn, hup, him, htn, hrole, hcn, hage, hbs, hrs, hcs, hwt]

lemma createPlayer_success_core (players : List Player) (body : Body)
    (env : IOEnv) (pn uid img tn : String) (role cn age bs rs cs wt : JVal)
    (hpn : getField body "playerName" = some (JVal.str pn))
    (hup : getField body "uniquePlayerId" = some (JVal.str uid))
    (him : getField body "image" = some (JVal.str img))
    (htn : getField body "teamName" = some (JVal.str tn))
    (hrole : getField body "role" = some role)
    (hcn : getField body "countryName" = some cn)
    (hage : getField body "age" = some age)
    (hbs : getField body "battingSyle" = some bs)
    (hrs : getField body "runsScored" = some rs)
    (hcs : getField body "centuriesScored" = some cs)
    (hwt : getField body "wicketsTaken" = some wt)
    (hfresh : players.find? (dupPred uid pn) = none)
    (hmk : env.mkdirOk = true) (hwi : env.writeImageOk = true) :
    createPlayer players body env =
      { result :=
          if env.writeDataOk = true then
            CreateResult.created (builtPlayer pn uid img tn role cn age bs rs cs wt)
          else CreateResult.serverError FailStep.dataWriteFail
        players := players ++ [builtPlayer pn uid img tn role cn age bs rs cs wt]
        effects :=
          [FsEffect.mkdirPlayersDir,
           FsEffect.writeImageFile (slugify pn ++ chosenExtension img)
             (bufferFromBase64 (imageExtensionAndPayload img).2),
           FsEffect.writePlayersData
             (players ++ [builtPlayer pn uid img tn role cn age bs rs cs wt])] } := by
  have hm : missingFields body = [] :=
    missingFields_eq_nil body pn uid img tn role cn age bs rs cs wt
      hpn hup him htn hrole hcn hage hbs hrs hcs hwt
  have hnotdup : (players.find? (dupPred uid pn)).isSome = false := by
    rw [hfresh]; rfl
  unfold createPlayer
  rw [if_pos hm, hpn, hup]
  simp only [hnotdup, Bool.false_eq_true, if_false]
  rw [him, htn]
  unfold runTryBlock
  simp only [hmk, hwi, hrole, hcn, hage, hbs, hrs, hcs, hwt,
    Bool.true_eq_false, if_false, Option.getD_some]
  cases hwd : env.writeDataOk with
  | false =>
    simp only [hwd, if_pos rfl, Bool.false_eq_true, if_false,
      builtPlayer, chosenExtension, if_true]
  | true =>
    simp only [hwd, Bool.true_eq_false, if_false, if_pos rfl,
      builtPlayer, chosenExtension, if_true]

lemma byId_find_none_of_fresh (players : List Player) (uid pn : String)
    (hfresh : players.find? (dupPred uid pn) = none) :
    players.find?
      (fun e => jsToLower e.uniquePlayerId == jsToLower uid) = none := by
  rw [List.find?_eq_none] at hfresh ⊢
  intro p hp
  have h := hfresh p hp
  unfold dupPred at h
  simp only [Bool.or_eq_true, not_or] at h
  exact h.1

lemma find?_append_left_none {α : Type} (l1 l2 : List α) (p : α → Bool)
    (h : l1.find? p = none) : (l1 ++ l2).find? p = l2.find? p := by
  induction l1 with
  | nil => rfl
  | cons a t ih =>
    rw [List.find?_eq_none] at h
    have hpa : p a = false := by
      have := h a (List.mem_cons_self a t)
      simpa using this
    have ht : t.find? p = none := by
      rw [List.find?_eq_none]
      intro x hx
      exact h x (List.mem_cons_of_mem a hx)
    rw [List.cons_append]
    simp [List.find?_cons, hpa, ih ht]

lemma byId_append_fresh (players : List Player) (built : Player) (uid : String)
    (hid : built.uniquePlayerId = uid)
    (hnone : players.find?
      (fun e => jsToLower e.uniquePlayerId == jsToLower uid) = none) :
    byId (players ++ [built]) uid = ByIdResult.ok built := by
  unfold byId
  rw [find?_append_left_none _ _ _ hnone]
  simp [List.find?_cons, hid]

/-- Claim C5: for every valid new player input with fresh (non-colliding) id
and name, and with the filesystem operations succeeding, create followed by
byId on that id returns a record equal to the input on every field except
image, whose value is the derived server-relative path
`/players/<slug><extension>`. -/
theorem createPlayer_then_byId (players : List Player) (body : Body)
    (env : IOEnv) (pn uid img tn : String) (role cn age bs rs cs wt : JVal)
    (hpn : getField body "playerName" = some (JVal.str pn))
    (hup : getField body "uniquePlayerId" = some (JVal.str uid))
    (him : getField body "image" = some (JVal.str img))
    (htn : getField body "teamName" = some (JVal.str tn))
    (hrole : getField body "role" = some role)
    (hcn : getField body "countryName" = some cn)
    (hage : getField body "age" = some age)
    (hbs : getField body "battingSyle" = some bs)
    (hrs : getField body "runsScored" = some rs)
    (hcs : getField body "centuriesScored" = some cs)
    (hwt : getField body "wicketsTaken" = some wt)
    (hfresh : players.find? (dupPred uid pn) = none)
    (hmk : env.mkdirOk = true) (hwi : env.writeImageOk = true)
    (hwd : env.writeDataOk = true) :
    (createPlayer players body env).result =
      CreateResult.created (builtPlayer pn uid img tn role cn age bs rs cs wt) ∧
    byId (createPlayer players body env).players uid =
      ByIdResult.ok (builtPlayer pn uid img tn role cn age bs rs cs wt) := by
  have hcore := createPlayer_success_core players body env pn uid img tn
    role cn age bs rs cs wt hpn hup him htn hrole hcn hage hbs hrs hcs hwt
    hfresh hmk hwi
  rw [hcore]
  constructor
  · simp [hwd]
  · exact byId_append_fresh players _ uid rfl
      (byId_find_none_of_fresh players uid pn hfresh)

/-- Witness for C5 at a concrete input: a full valid body with fresh id and
name against the demo collection; the created record keeps every input
field and stores the derived `.jpg` path. -/
theorem createPlayer_then_byId_witness :
    (createPlayer [demoPlayer] bodyValidFresh okEnv).result =
      CreateResult.created (builtPlayer "Rohit Sharma" "MI-45"
        "data:image/jpeg;base64,AAAA" "Mumbai Indians" (.str "Batter")
        (.str "India") (.num 38) (.str "Right-hand bat") (.num 9500)
        (.num 1) (.num 8)) ∧
    byId (createPlayer [demoPlayer] bodyValidFresh okEnv).players "MI-45" =
      ByIdResult.ok (builtPlayer "Rohit Sharma" "MI-45"
        "data:image/jpeg;base64,AAAA" "Mumbai Indians" (.str "Batter")
        (.str "India") (.num 38) (.str "Right-hand bat") (.num 9500)
        (.num 1) (.num 8)) :=
  createPlayer_then_byId [demoPlayer] bodyValidFresh okEnv
    "Rohit Sharma" "MI-45" "data:image/jpeg;base64,AAAA" "Mumbai Indians"
    (.str "Batter") (.str "India") (.num 38) (.str "Right-hand bat")
    (.num 9500) (.num 1) (.num 8)
    (by decide) (by decide) (by decide) (by decide) (by decide) (by decide)
    (by decide) (by decide) (by decide) (by decide) (by decide) (by decide)
    (by decide) (by decide) (by decide)

/-! ### Claim C2 -/

/-- Does the creation result carry HTTP status 201? -/
def CreateResult.isCreated : CreateResult → Bool
  | .created _ => true
  | _ => false

/-- Claim C2 (amended): base64 decoding is not a failure point — the decoder
behind `Buffer.from(payload, 'base64')` is lenient and total, so an image
payload whose base64 portion is not valid base64 raises no DecodeError;
with all fields present, fresh keys and the filesystem succeeding, creation
succeeds and the Player IS appended, the invalid characters being skipped
by the decoder. -/
theorem createPlayer_bad_base64_still_creates (players : List Player)
    (body : Body) (env : IOEnv) (pn uid img tn : String)
    (role cn age bs rs cs wt : JVal)
    (hpn : getField body "playerName" = some (JVal.str pn))
    (hup : getField body "uniquePlayerId" = some (JVal.str uid))
    (him : getField body "image" = some (JVal.str img))
    (htn : getField body "teamName" = some (JVal.str tn))
    (hrole : getField body "role" = some role)
    (hcn : getField body "countryName" = some cn)
    (hage : getField body "age" = some age)
    (hbs : getField body "battingSyle" = some bs)
    (hrs : getField body "runsScored" = some rs)
    (hcs : getField body "centuriesScored" = some cs)
    (hwt : getField body "wicketsTaken" = some wt)
    (hfresh : players.find? (dupPred uid pn) = none)
    (hmk : env.mkdirOk = true) (hwi : env.writeImageOk = true)
    (hwd : env.writeDataOk = true)
    (hbad : isValidBase64 (imageExtensionAndPayload img).2 = false) :
    (createPlayer players body env).result =
      CreateResult.created (builtPlayer pn uid img tn role cn age bs rs cs wt) ∧
    (createPlayer players body env).players =
      players ++ [builtPlayer pn uid img tn role cn age bs rs cs wt] := by
  have hcore := createPlayer_success_core players body env pn uid img tn
    role cn age bs rs cs wt hpn hup him htn hrole hcn hage hbs hrs hcs hwt
    hfresh hmk hwi
  rw [hcore]
  exact ⟨by simp [hwd], rfl⟩

/-- Witness for C2 (amended): the body with image `"!!!"` — not valid
base64 — is created anyway. -/
theorem createPlayer_bad_base64_still_creates_witness :
    (createPlayer [] bodyBadImage okEnv).result =
      CreateResult.created (builtPlayer "Bad Image Guy" "CSK-99" "!!!"
        "Chennai Super Kings" (.str "Bowler") (.str "India") (.num 25)
        (.str "Left-hand bat") (.num 5) (.num 0) (.num 40)) ∧
    (createPlayer [] bodyBadImage okEnv).players =
      [builtPlayer "Bad Image Guy" "CSK-99" "!!!" "Chennai Super Kings"
        (.str "Bowler") (.str "India") (.num 25) (.str "Left-hand bat")
        (.num 5) (.num 0) (.num 40)] :=
  createPlayer_bad_base64_still_creates [] bodyBadImage okEnv
    "Bad Image Guy" "CSK-99" "!!!" "Chennai Super Kings"
    (.str "Bowler") (.str "India") (.num 25) (.str "Left-hand bat")
    (.num 5) (.num 0) (.num 40)
    (by decide) (by decide) (by decide) (by decide) (by decide) (by decide)
    (by decide) (by decide) (by decide) (by decide) (by decide) (by decide)
    (by decide) (by decide) (by decide) (by decide)

/-- Counterexample to C2 as stated: for the payload `"!!!"`, which is not
valid base64, image persistence does NOT fail — creation succeeds (201) and
a Player is appended.  No failure exists to propagate. -/
theorem createPlayer_c2_counterexample :
    isValidBase64 "!!!" = false ∧
    ((createPlayer [] bodyBadImage okEnv).result).isCreated = true ∧
    ((createPlayer [] bodyBadImage okEnv).players).length = 1 := by
  refine ⟨by decide, by decide, by decide⟩

/-! ### Claim C9 -/

/-- Claim C9: when validation, duplicate detection and the image write all
succeed but the rewrite of the backing player file fails, the in-memory
append is not rolled back: the caller gets the persistence failure (the
catch block's 500), the attempted backing-file write is the last effect,
and later reads (byId) observe the new record. -/
theorem createPlayer_persist_fail_keeps_append (players : List Player)
    (body : Body) (env : IOEnv) (pn uid img tn : String)
    (role cn age bs rs cs wt : JVal)
    (hpn : getField body "playerName" = some (JVal.str pn))
    (hup : getField body "uniquePlayerId" = some (JVal.str uid))
    (him : getField body "image" = some (JVal.str img))
    (htn : getField body "teamName" = some (JVal.str tn))
    (hrole : getField body "role" = some role)
    (hcn : getField body "countryName" = some cn)
    (hage : getField body "age" = some age)
    (hbs : getField body "battingSyle" = some bs)
    (hrs : getField body "runsScored" = some rs)
    (hcs : getField body "centuriesScored" = some cs)
    (hwt : getField body "wicketsTaken" = some wt)
    (hfresh : players.find? (dupPred uid pn) = none)
    (hmk : env.mkdirOk = true) (hwi : env.writeImageOk = true)
    (hwd : env.writeDataOk = false) :
    (createPlayer players body env).result =
      CreateResult.serverError FailStep.dataWriteFail ∧
    (createPlayer players body env).players =
      players ++ [builtPlayer pn uid img tn role cn age bs rs cs wt] ∧
    byId (createPlayer players body env).players uid =
      ByIdResult.ok (builtPlayer pn uid img tn role cn age bs rs cs wt) := by
  have hcore := createPlayer_success_core players body env pn uid img tn
    role cn age bs rs cs wt hpn hup him htn hrole hcn hage hbs hrs hcs hwt
    hfresh hmk hwi
  rw [hcore]
  refine ⟨by simp [hwd], rfl, ?_⟩
  exact byId_append_fresh players _ uid rfl
    (byId_find_none_of_fresh players uid pn hfresh)

/-- Witness for C9: the concrete valid body against the demo collection with
a failing backing-file write — 500 surfaced, record still readable. -/
theorem createPlayer_persist_fail_keeps_append_witness :
    (createPlayer [demoPlayer] bodyValidFresh ⟨true, true, false⟩).result =
      CreateResult.serverError FailStep.dataWriteFail ∧
    byId (createPlayer [demoPlayer] bodyValidFresh
        ⟨true, true, false⟩).players "MI-45" =
      ByIdResult.ok (builtPlayer "Rohit Sharma" "MI-45"
        "data:image/jpeg;base64,AAAA" "Mumbai Indians" (.str "Batter")
        (.str "India") (.num 38) (.str "Right-hand bat") (.num 9500)
        (.num 1) (.num 8)) := by
  have h := createPlayer_persist_fail_keeps_append [demoPlayer]
    bodyValidFresh ⟨true, true, false⟩
    "Rohit Sharma" "MI-45" "data:image/jpeg;base64,AAAA" "Mumbai Indians"
    (.str "Batter") (.str "India") (.num 38) (.str "Right-hand bat")
    (.num 9500) (.num 1) (.num 8)
    (by decide) (by decide) (by decide) (by decide) (by decide) (by decide)
    (by decide) (by decide) (by decide) (by decide) (by decide) (by decide)
    (by decide) (by decide) (by decide)
  exact ⟨h.1, h.2.2⟩

/-! ### Claim C3 -/

/-- Claim C3 (amended): the byTeam query fails with ValidationError exactly
for an absent or empty teamName (the JS falsy check); a whitespace-only
teamName is NOT rejected — it is trimmed and matched like any other value.
For every nonempty teamName, the query fails with NotFoundError — whose
message literally appends the requested team name — exactly when no
player's teamName case-insensitively equals the trimmed input. -/
theorem byTeam_spec (players : List Player) (q : Option String) :
    (byTeam players q =
        ByTeamResult.validationError "teamName query parameter is required" ↔
      (q = none ∨ q = some "")) ∧
    (∀ s, q = some s → s ≠ "" →
      (byTeam players q =
          ByTeamResult.notFound ("No players found for team " ++ s) ↔
        players.filter
          (fun p => jsToLower p.teamName == jsToLower (jsTrim s)) = [])) := by
  cases q with
  | none =>
    refine ⟨by simp [byTeam], ?_⟩
    intro s hs
    exact absurd hs (by simp)
  | some s =>
    by_cases hs : s = ""
    · subst hs
      refine ⟨by simp [byTeam], ?_⟩
      intro s' he hne
      rw [Option.some.injEq] at he
      exact absurd he.symm hne
    · constructor
      · simp only [byTeam]
        rw [if_neg hs]
        cases hf : players.filter
            (fun p => jsToLower p.teamName == jsToLower (jsTrim s)) with
        | nil => simp [hf, hs]
        | cons a t => simp [hf, hs]
      · intro s' he hne
        rw [Option.some.injEq] at he
        subst he
        simp only [byTeam]
        rw [if_neg hs]
        cases hf : players.filter
            (fun p => jsToLower p.teamName == jsToLower (jsTrim s)) with
        | nil => simp [hf]
        | cons a t => simp [hf]

/-- Witness for C3 (amended): the spec's own scenario — an unmatched team
name yields the 404 message carrying it — and an absent parameter yields
the 400. -/
theorem byTeam_spec_witness :
    byTeam [demoPlayer] (some "mumbai-indians") =
      ByTeamResult.notFound "No players found for team mumbai-indians" ∧
    byTeam [demoPlayer] none =
      ByTeamResult.validationError "teamName query parameter is required" := by
  constructor
  · exact ((byTeam_spec [demoPlayer] (some "mumbai-indians")).2
      "mumbai-indians" rfl (by decide)).mpr (by decide)
  · exact (byTeam_spec [demoPlayer] none).1.mpr (Or.inl rfl)

/-- Counterexample to C3 as stated: the whitespace-only (blank) teamName
`" "` is not rejected with ValidationError — the falsy check passes it, it
is trimmed to the empty string, matches no player, and the handler answers
NotFoundError instead. -/
theorem byTeam_c3_counterexample :
    jsTrim " " = "" ∧
    byTeam [demoPlayer] (some " ") =
      ByTeamResult.notFound "No players found for team  " ∧
    (byTeam [demoPlayer] (some " ")).isValidation = false := by
  refine ⟨by decide, by decide, by decide⟩

/-! ### Claim C8 -/

lemma firstSeenTeams_append (ps : List Player) (p : Player) :
    firstSeenTeams (ps ++ [p]) =
      if p.teamName ∈ firstSeenTeams ps then firstSeenTeams ps
      else firstSeenTeams ps ++ [p.teamName] := by
  unfold firstSeenTeams
  rw [List.foldl_append]
  rfl

lemma groupedMap_append (ps : List Player) (p : Player) :
    groupedMap (ps ++ [p]) = addToGroup (groupedMap ps) p := by
  unfold groupedMap
  rw [List.foldl_append]
  rfl

lemma mem_firstSeenTeams (ps : List Player) :
    ∀ t, t ∈ firstSeenTeams ps ↔ ∃ p, p ∈ ps ∧ p.teamName = t := by
  induction ps using List.reverseRecOn with
  | nil => intro t; simp [firstSeenTeams]
  | append_singleton ps p ih =>
    intro t
    rw [firstSeenTeams_append]
    by_cases hmem : p.teamName ∈ firstSeenTeams ps
    · rw [if_pos hmem, ih t]
      constructor
      · rintro ⟨q, hq, rfl⟩
        exact ⟨q, List.mem_append.mpr (Or.inl hq), rfl⟩
      · rintro ⟨q, hq, rfl⟩
        rcases List.mem_append.mp hq with h | h
        · exact ⟨q, h, rfl⟩
        · have hqp : q = p := by simpa using h
          subst hqp
          exact (ih q.teamName).mp hmem
    · rw [if_neg hmem]
      constructor
      · intro ht
        rcases List.mem_append.mp ht with h | h
        · obtain ⟨q, hq, rfl⟩ := (ih t).mp h
          exact ⟨q, List.mem_append.mpr (Or.inl hq), rfl⟩
        · have hteq : t = p.teamName := by simpa using h
          subst hteq
          exact ⟨p, List.mem_append.mpr (Or.inr (by simp)), rfl⟩
      · rintro ⟨q, hq, rfl⟩
        rcases List.mem_append.mp hq with h | h
        · exact List.mem_append.mpr (Or.inl ((ih q.teamName).mpr ⟨q, h, rfl⟩))
        · have hqp : q = p := by simpa using h
          subst hqp
          exact List.mem_append.mpr (Or.inr (by simp))

lemma groupedMap_eq_spec (ps : List Player) :
    groupedMap ps = (firstSeenTeams ps).map
      (fun t => (t, ps.filter (fun q => q.teamName == t))) := by
  induction ps using List.reverseRecOn with
  | nil => rfl
  | append_singleton ps p ih =>
    rw [groupedMap_append, ih, firstSeenTeams_append]
    by_cases hmem : p.teamName ∈ firstSeenTeams ps
    · rw [if_pos hmem]
      unfold addToGroup
      have hfind : (((firstSeenTeams ps).map
          (fun t => (t, ps.filter (fun q => q.teamName == t)))).find?
          (fun kv => kv.1 == p.teamName)).isSome = true := by
        rw [List.find?_isSome]
        refine ⟨(p.teamName, ps.filter (fun q => q.teamName == p.teamName)),
          List.mem_map.mpr ⟨p.teamName, hmem, rfl⟩, by simp⟩
      simp only [hfind, if_true]
      rw [List.map_map]
      apply List.map_congr_left
      intro t ht
      simp only [Function.comp]
      by_cases hteq : t = p.teamName
      · subst hteq
        simp [List.filter_append, List.filter_cons, List.filter_nil]
      · have h1 : (t == p.teamName) = false := by
          simp only [beq_eq_false_iff_ne, ne_eq]
          exact hteq
        have h2 : (p.teamName == t) = false := by
          simp only [beq_eq_false_iff_ne, ne_eq]
          exact fun h => hteq h.symm
        simp [h1, h2, List.filter_append, List.filter_cons, List.filter_nil]
    · rw [if_neg hmem]
      unfold addToGroup
      have hfind : (((firstSeenTeams ps).map
          (fun t => (t, ps.filter (fun q => q.teamName == t)))).find?
          (fun kv => kv.1 == p.teamName)).isSome = false := by
        rw [← Bool.not_eq_true, List.find?_isSome]
        rintro ⟨kv, hkv, hpred⟩
        obtain ⟨t, ht, rfl⟩ := List.mem_map.mp hkv
        have hteq : t = p.teamName := by simpa using hpred
        exact hmem (hteq ▸ ht)
      simp only [hfind, Bool.false_eq_true, if_false]
      rw [List.map_append]
      have hleft : (firstSeenTeams ps).map
          (fun t => (t, ps.filter (fun q => q.teamName == t)))
          = (firstSeenTeams ps).map
            (fun t => (t, (ps ++ [p]).filter (fun q => q.teamName == t))) := by
        apply List.map_congr_left
        intro t ht
        have hne : (p.teamName == t) = false := by
          simp only [beq_eq_false_iff_ne, ne_eq]
          exact fun h => hmem (h ▸ ht)
        simp [List.filter_append, List.filter_cons, List.filter_nil, hne]
      have hright : ((ps ++ [p]).filter
          (fun q => q.teamName == p.teamName)) = [p] := by
        have hnil : ps.filter (fun q => q.teamName == p.teamName) = [] := by
          rw [List.filter_eq_nil_iff]
          intro q hq hpred
          have hqt : q.teamName = p.teamName := by simpa using hpred
          exact hmem ((mem_firstSeenTeams ps p.teamName).mpr ⟨q, hq, hqt⟩)
        simp [List.filter_append, List.filter_cons, List.filter_nil, hnil]
      rw [hleft]
      congr 1
      simp only [List.map_cons, List.map_nil]
      rw [hright]

lemma jsObjectEntries_of_no_index (assoc : List (String × List Player))
    (h : ∀ kv ∈ assoc, isArrayIndexKey kv.1 = false) :
    jsObjectEntries assoc = assoc := by
  unfold jsObjectEntries
  have h1 : assoc.filter (fun kv => isArrayIndexKey kv.1) = [] := by
    rw [List.filter_eq_nil_iff]
    intro kv hkv
    simp [h kv hkv]
  have h2 : assoc.filter (fun kv => !isArrayIndexKey kv.1) = assoc := by
    rw [List.filter_eq_self]
    intro kv hkv
    simp [h kv hkv]
  rw [h1, h2]
  rfl

/-- Claim C8 (amended): grouped() partitions players by their teamName
compared exactly (case-sensitively), each group's members preserve
collection order, and the pairs appear in first-occurrence order of the
team names — provided no teamName is an array-index string (a canonical
base-10 numeral below 2^32 - 1), since `Object.entries` enumerates such
keys first in ascending numeric order, and no teamName is the special
object key `"__proto__"` (outside the plain-property model). -/
theorem grouped_first_seen (ps : List Player)
    (hidx : ∀ p ∈ ps, isArrayIndexKey p.teamName = false)
    (hproto : ∀ p ∈ ps, p.teamName ≠ "__proto__") :
    grouped ps = groupedSpec ps := by
  unfold grouped groupedSpec
  rw [groupedMap_eq_spec, jsObjectEntries_of_no_index]
  · rw [List.map_map]
    rfl
  · intro kv hkv
    obtain ⟨t, ht, rfl⟩ := List.mem_map.mp hkv
    obtain ⟨q, hq, hqt⟩ := (mem_firstSeenTeams ps t).mp ht
    exact hqt ▸ hidx q hq

/-- Witness for C8 (amended) on a concrete three-player collection with two
teams: grouping follows first-seen team order with members in collection
order. -/
theorem grouped_first_seen_witness :
    grouped [demoPlayer, demoPlayer2, demoPlayer3] =
      groupedSpec [demoPlayer, demoPlayer2, demoPlayer3] :=
  grouped_first_seen [demoPlayer, demoPlayer2, demoPlayer3]
    (by decide) (by decide)

/-- Counterexample to C8 as stated: with a team literally named `"1"` seen
second, `Object.entries` enumerates the array-index key `"1"` first, so the
pair sequence is NOT ordered by first occurrence. -/
theorem grouped_c8_counterexample :
    (grouped [demoPlayer, numTeamPlayer]).map (fun g => g.teamName) =
      ["1", "Royal Challengers Bengaluru"] ∧
    (groupedSpec [demoPlayer, numTeamPlayer]).map (fun g => g.teamName) =
      ["Royal Challengers Bengaluru", "1"] ∧
    grouped [demoPlayer, numTeamPlayer] ≠
      groupedSpec [demoPlayer, numTeamPlayer] := by
  refine ⟨by decide, by decide, by decide⟩

end CricRoster
